import Mathlib

/-!
Verification of the validator-combinator library in invariance.py.

The file shallowly embeds the library's data model and operations in Lean:

- PyVal models the Python values the library manipulates (None, bool, int,
  str, list, exception instances).  Python ints carry an object identity
  (objId) in addition to their numeric value, because the library's
  UniquenessValidator compares elements with the identity operator and
  CPython interns small integer literals (two occurrences of the literal 1
  denote the same object).
- Validator is the class hierarchy rooted at AbstractValidator; one
  constructor per concrete subclass that overrides validate.
  UniformityValidator is modelled separately because it never overrides the
  abstract method validate (its hook is named valid), so under abc.ABCMeta
  the class cannot be instantiated at all.
- Python methods that can raise are modelled in the Except monad:
  Except.error e is a raised exception, Except.ok v a returned value.
  validate returns None or an exception instance by value, so its returned
  payload is an ordinary PyVal inside Except.ok.
- str.format is modelled by a small interpreter (strFormat) covering the
  replacement-field shapes that occur in the library's message templates,
  including the KeyError raised when a field name is not among the keyword
  arguments.
-/

/-- Python values manipulated by the library.  An int carries the identity
of the underlying object besides its numeric value; exceptions carry the
class name and the message they were constructed with. -/
inductive PyVal where
  | none
  | bool (b : Bool)
  | int (objId : Nat) (n : Int)
  | str (s : String)
  | list (elems : List PyVal)
  | exc (cls : String) (msg : String)

/-- Python truthiness, as used by if/and/or on the values above. -/
def PyVal.truthy : PyVal → Bool
  | .none => false
  | .bool b => b
  | .int _ n => n != 0
  | .str s => s != ""
  | .list xs => !xs.isEmpty
  | .exc _ _ => true

/-- The test x is None.  None is a singleton, so the identity test holds
exactly of the constructor PyVal.none. -/
def PyVal.isNone : PyVal → Bool
  | .none => true
  | _ => false

/-- Python object identity (the is operator) for the values the library
compares with it.  None, True and False are singletons; ints are identified
by their object id (CPython interns small integer literals, so equal small
literals share one id); all other values modelled here are separately
constructed objects and are conservatively distinct. -/
def PyVal.isIdentical : PyVal → PyVal → Bool
  | .none, .none => true
  | .bool a, .bool b => a == b
  | .int i _, .int j _ => i == j
  | _, _ => false

/-- Whether a value may be used as a dict key (lists are unhashable). -/
def PyVal.hashable : PyVal → Bool
  | .list _ => false
  | _ => true

/-- A single-quote character, as produced by repr of a string. -/
def squote : String := "\x27"

mutual
/-- Python repr of a value: ints and bools print their literal, strings are
quoted, lists print their elements' reprs, exceptions print the class name
around the quoted message. -/
def pyRepr : PyVal → String
  | .none => "None"
  | .bool b => if b then "True" else "False"
  | .int _ n => toString n
  | .str s => squote ++ s ++ squote
  | .list xs => "[" ++ pyReprList xs ++ "]"
  | .exc cls msg => cls ++ "(" ++ squote ++ msg ++ squote ++ ")"

/-- Comma-separated reprs of the elements of a list. -/
def pyReprList : List PyVal → String
  | [] => ""
  | [x] => pyRepr x
  | x :: xs => pyRepr x ++ ", " ++ pyReprList xs
end

/-- Python str of a value: strings print themselves, exceptions print their
message, everything else prints as its repr. -/
def pyStr : PyVal → String
  | .str s => s
  | .exc _ msg => msg
  | v => pyRepr v

mutual
/-- Python equality (the == operator) on the values above.  booleans are
numerically equal to the ints 0 and 1 (bool is a subclass of int), strings
and lists compare by value, None only equals itself.  Exception instances
compare by identity in Python; the library never compares exceptions with
==, and the embedding conservatively treats two exception values as
distinct objects. -/
def pyEq : PyVal → PyVal → Bool
  | .none, .none => true
  | .bool a, .bool b => a == b
  | .int _ a, .int _ b => a == b
  | .bool a, .int _ b => (if a then (1 : Int) else 0) == b
  | .int _ a, .bool b => a == (if b then (1 : Int) else 0)
  | .str a, .str b => a == b
  | .list xs, .list ys => pyEqList xs ys
  | _, _ => false

/-- Elementwise equality of two lists of values. -/
def pyEqList : List PyVal → List PyVal → Bool
  | [], [] => true
  | x :: xs, y :: ys => pyEq x y && pyEqList xs ys
  | _, _ => false
end

/-- An opening brace, the start of a replacement field in a format string. -/
def lbraceChar : Char := Char.ofNat 123

/-- A closing brace, the end of a replacement field in a format string. -/
def rbraceChar : Char := Char.ofNat 125

/-- Evaluation of one replacement field of a format string called with the
single keyword argument target.  The text before the exclamation mark is
the field name: any name other than target is missing from the keyword
arguments and raises KeyError(name).  The conversions are r (repr) and
s (str); no conversion means str. -/
def formatField (target : PyVal) (field : List Char) : Except PyVal String :=
  let fieldName := (field.takeWhile (fun c => c != '!')).asString
  let conversion := (field.dropWhile (fun c => c != '!')).asString
  if fieldName = "target" then
    if conversion = "" then .ok (pyStr target)
    else if conversion = "!r" then .ok (pyRepr target)
    else if conversion = "!s" then .ok (pyStr target)
    else .error (PyVal.exc "ValueError" "Unknown conversion specifier")
  else .error (PyVal.exc "KeyError" fieldName)

/-- Character-by-character interpreter for str.format with the keyword
argument target.  The second argument is none while scanning literal text
and some acc (the field read so far, reversed) inside a replacement field.
Stray braces raise ValueError exactly as in Python.  The doubled-brace
escapes and the colon format-spec syntax never occur in the library's
templates and are not modelled. -/
def strFormatAux (target : PyVal) : List Char → Option (List Char) → Except PyVal (List Char)
  | [], Option.none => .ok []
  | [], some _ => .error (PyVal.exc "ValueError" "Single \x7b encountered in format string")
  | c :: rest, Option.none =>
    if c == lbraceChar then strFormatAux target rest (some [])
    else if c == rbraceChar then
      .error (PyVal.exc "ValueError" "Single \x7d encountered in format string")
    else do
      let tail ← strFormatAux target rest Option.none
      pure (c :: tail)
  | c :: rest, some fieldAcc =>
    if c == rbraceChar then do
      let value ← formatField target fieldAcc.reverse
      let tail ← strFormatAux target rest Option.none
      pure (value.data ++ tail)
    else strFormatAux target rest (some (c :: fieldAcc))

/-- template.format(target=target): interpret the template, returning the
formatted string or the exception str.format raises. -/
def strFormat (template : String) (target : PyVal) : Except PyVal String := do
  let cs ← strFormatAux target template.data Option.none
  pure cs.asString

/-- BooleanValidator.DEFAULT_ERROR_MESSAGE, exactly as written in the
source: the replacement field reads target|r (a vertical bar where the
repr-conversion !r was evidently intended). -/
def DEFAULT_ERROR_MESSAGE : String := "invariant not true of \x7btarget|r\x7d"

/-- The built-in types the embedding knows about; each is a Python type
object with a __name__ attribute. -/
inductive PyType where
  | int
  | str
  | bool
  | list
  | NoneType

/-- The __name__ attribute of a type object. -/
def PyType.name : PyType → String
  | .int => "int"
  | .str => "str"
  | .bool => "bool"
  | .list => "list"
  | .NoneType => "NoneType"

/-- isinstance against a single type.  bool is a subclass of int, so True
and False are instances of int. -/
def instanceOf : PyVal → PyType → Bool
  | .int _ _, .int => true
  | .bool _, .int => true
  | .bool _, .bool => true
  | .str _, .str => true
  | .list _, .list => true
  | .none, .NoneType => true
  | _, _ => false

/-- The argument accepted by isinstance and by the Type convenience
constructor: a single type object, or a tuple of type objects. -/
inductive PyTypeArg where
  | single (t : PyType)
  | tuple (ts : List PyType)

/-- isinstance(target, type_): a tuple argument matches when any of its
member types matches. -/
def pyIsinstance (target : PyVal) : PyTypeArg → Bool
  | .single t => instanceOf target t
  | .tuple ts => ts.any (fun t => instanceOf target t)

/-- Reading the __name__ attribute of the argument: type objects have one,
tuples do not. -/
def PyTypeArg.nameAttr : PyTypeArg → Option String
  | .single t => some t.name
  | .tuple _ => Option.none

/-- The concrete validator classes of the library, one constructor per
subclass of AbstractValidator that overrides validate.  A BooleanValidator
holds the constructor arguments callable_, error_class and error_message;
the compound validators hold their children; the iterable validators hold
their parameters.  UniformityValidator is absent: it does not override the
abstract method validate (its hook is misnamed valid), so under abc.ABCMeta
it cannot be instantiated and no Validator value of that class can exist;
it is modelled separately below. -/
inductive Validator where
  | boolean (callable : PyVal → PyVal) (error_class : String) (error_message : String)
  | conj (left right : Validator)
  | disj (left right : Validator)
  | container (inner_validator : Validator)
  | uniqueness (key_function : PyVal → PyVal)

/-- The loop of ContainerValidator.validate, acting on the per-element
results of the inner validator in order: the first result that is not None
(a returned failure payload, or a raised exception) is the overall result;
if the loop completes, the method falls through and returns None. -/
def containerScan : List (Except PyVal PyVal) → Except PyVal PyVal
  | [] => .ok PyVal.none
  | r :: rs =>
    match r with
    | .ok PyVal.none => containerScan rs
    | other => other

/-- The loop of UniquenessValidator.validate.  keyset is the dict mapping
each key seen so far to the first item observed with that key (insertion
ordered, keys compared with ==).  inserted = keyset.setdefault(key, item)
returns the previously stored item when the key is present and otherwise
inserts and returns item itself; the loop then returns a ValueError payload
only when inserted is not item — an identity test, so a duplicate that is
the very same object (e.g. an interned int literal) is not reported.
An unhashable key makes setdefault raise TypeError. -/
def uniquenessLoop (key_function : PyVal → PyVal) :
    List PyVal → List (PyVal × PyVal) → Except PyVal PyVal
  | [], _ => .ok PyVal.none
  | item :: rest, keyset =>
    let key := key_function item
    if key.hashable then
      match keyset.find? (fun kv => pyEq kv.1 key) with
      | some kv =>
        if kv.2.isIdentical item then uniquenessLoop key_function rest keyset
        else .ok (PyVal.exc "ValueError"
            (pyRepr kv.2 ++ " and " ++ pyRepr item ++ " have same keys"))
      | Option.none => uniquenessLoop key_function rest (keyset ++ [(key, item)])
    else .error (PyVal.exc "TypeError" "unhashable type")

/-- The dispatch performed by self.left(target) and self.right(target)
inside the compound validators: AbstractValidator.__call__ delegates to
is_valid.  BooleanValidator overrides is_valid to return the raw value of
self.callable(target); every other class inherits AbstractValidator's
is_valid, which returns the Python bool (self.validate(target) is None).
The third argument is the value of self.validate(target), consumed only in
the inherited case. -/
def callFrom (v : Validator) (target : PyVal) (validateResult : Except PyVal PyVal) :
    Except PyVal PyVal :=
  match v with
  | .boolean callable _ _ => .ok (callable target)
  | _ => do
    let r ← validateResult
    pure (PyVal.bool r.isNone)

/-- The validate method of each concrete class, as dispatched on the class
of the receiver.

- BooleanValidator.validate: if the callable is falsy of the target, return
  error_class(error_message.format(target=target)) — the format call can
  itself raise — otherwise return None.
- ConjunctiveValidator.validate: return self.left(target) or
  self.right(target).  The operands go through __call__, i.e. is_valid, and
  the Python or returns the left value when it is truthy and otherwise the
  right value.
- DisjunctiveValidator.validate: the statement self.left(target) and
  self.right(target) is evaluated (the right operand only when the left
  value is truthy) and its value is discarded; the method has no return
  statement, so it returns None.
- ContainerValidator.validate: iterate the target, returning the first
  non-None result of self.inner_validator.validate(item); validation is
  pure, so mapping validate over the elements and keeping the first
  non-None result is the same function.
- UniquenessValidator.validate: the setdefault loop above.

Iteration is modelled for list targets; a non-list target raises TypeError
(string iteration is not modelled, no property below needs it). -/
def Validator.validate : Validator → PyVal → Except PyVal PyVal
  | .boolean callable error_class error_message => fun target =>
    if (callable target).truthy then .ok PyVal.none
    else do
      let msg ← strFormat error_message target
      pure (PyVal.exc error_class msg)
  | .conj left right => fun target =>
    match callFrom left target (Validator.validate left target) with
    | .error e => .error e
    | .ok leftValue =>
      if leftValue.truthy then .ok leftValue
      else callFrom right target (Validator.validate right target)
  | .disj left right => fun target =>
    match callFrom left target (Validator.validate left target) with
    | .error e => .error e
    | .ok leftValue =>
      if leftValue.truthy then
        match callFrom right target (Validator.validate right target) with
        | .error e => .error e
        | .ok _ => .ok PyVal.none
      else .ok PyVal.none
  | .container inner_validator => fun target =>
    match target with
    | .list xs => containerScan (xs.map (fun item => Validator.validate inner_validator item))
    | _ => .error (PyVal.exc "TypeError" "object is not iterable")
  | .uniqueness key_function => fun target =>
    match target with
    | .list xs => uniquenessLoop key_function xs []
    | _ => .error (PyVal.exc "TypeError" "object is not iterable")

/-- is_valid — also __call__, which delegates to it.  BooleanValidator's
override returns the raw predicate value; the inherited implementation
returns (validate(target) is None). -/
def Validator.is_valid (v : Validator) (target : PyVal) : Except PyVal PyVal :=
  callFrom v target (v.validate target)

/-- The Type convenience function.  It builds the error message by the
string concatenation ... + type_.__name__ before constructing the
BooleanValidator, so a tuple argument — which isinstance itself would
accept — raises AttributeError at construction time. -/
def TypeValidator (type_ : PyTypeArg) : Except PyVal Validator :=
  match type_.nameAttr with
  | some nm => .ok (.boolean (fun target => PyVal.bool (pyIsinstance target type_))
      "TypeError" ("\x7btarget!r\x7d not of type " ++ nm))
  | Option.none =>
    .error (PyVal.exc "AttributeError"
      "\x27tuple\x27 object has no attribute \x27__name__\x27")

/-- The validator produced by Type(int). -/
def typeInt : Validator :=
  .boolean (fun target => PyVal.bool (pyIsinstance target (PyTypeArg.single PyType.int)))
    "TypeError" ("\x7btarget!r\x7d not of type " ++ PyType.name PyType.int)

/-- The method names defined in the class body of UniformityValidator: the
constructor and the hook, which is named valid rather than validate. -/
def UniformityValidator.definedMethodNames : List String := ["__init__", "valid"]

/-- The names of the abstract methods of AbstractValidator (only validate
carries the abstractmethod decorator). -/
def AbstractValidator.abstractMethodNames : List String := ["validate"]

/-- Calling UniformityValidator(key_function).  Under abc.ABCMeta a class
can be instantiated only when every abstract method of its bases has been
overridden; otherwise the call raises TypeError.  UniformityValidator
defines valid but not validate, so the test fails. -/
def UniformityValidator.init (key_function : PyVal → PyVal) :
    Except PyVal (PyVal → PyVal) :=
  if AbstractValidator.abstractMethodNames.all
      (fun m => UniformityValidator.definedMethodNames.contains m) then
    .ok key_function
  else
    .error (PyVal.exc "TypeError"
      "Can\x27t instantiate abstract class UniformityValidator with abstract method validate")

/-- The loop of UniformityValidator.valid: first is the first element and
key its key; each later item whose key compares unequal to key produces a
ValueError payload naming first and the offending item. -/
def uniformityLoop (key_function : PyVal → PyVal) (first : PyVal) (key : PyVal) :
    List PyVal → Except PyVal PyVal
  | [] => .ok PyVal.none
  | item :: rest =>
    if pyEq (key_function item) key then uniformityLoop key_function first key rest
    else .ok (PyVal.exc "ValueError"
        (pyRepr first ++ " and " ++ pyRepr item ++ " have different keys"))

/-- The body of the (unreachable) method UniformityValidator.valid: next
over the iterator with the _GUARD default distinguishes the empty target —
for which the method returns None — from a first element, whose key every
later element's key is compared against. -/
def UniformityValidator.valid (key_function : PyVal → PyVal) (target : List PyVal) :
    Except PyVal PyVal :=
  match target with
  | [] => .ok PyVal.none
  | first :: rest => uniformityLoop key_function first (key_function first) rest

/-- A host instance's attribute storage (the instance __dict__): an
insertion-ordered mapping from attribute name to value. -/
abbrev InstanceDict := List (String × PyVal)

/-- getattr(instance, name) against the instance storage. -/
def dictLookup : InstanceDict → String → Option PyVal
  | [], _ => Option.none
  | (k, v) :: rest, key => if k = key then some v else dictLookup rest key

/-- setattr(instance, name, value): replace the stored value when the name
is present, otherwise append the new binding. -/
def dictSet : InstanceDict → String → PyVal → InstanceDict
  | [], key, value => [(key, value)]
  | (k, v) :: rest, key, value =>
    if k = key then (key, value) :: rest else (k, v) :: dictSet rest key value

/-- delattr(instance, name): remove the binding for the name. -/
def dictRemove : InstanceDict → String → InstanceDict
  | [], _ => []
  | (k, v) :: rest, key => if k = key then rest else (k, v) :: dictRemove rest key

/-- The default storage name chosen by ValidatedAttribute.__init__:
the string percent-formatting of the descriptor's object id after a double
underscore, as in the expression given to the name attribute. -/
def autoName (selfId : Nat) : String := "__" ++ Nat.repr selfId

/-- The ValidatedAttribute descriptor: the validator passed at
construction, the storage name, and the descriptor object's own id (used
only to build the default storage name, and to distinguish instances). -/
structure ValidatedAttribute where
  selfId : Nat
  validator : Validator
  name : String

/-- ValidatedAttribute(validator, name=None): the name attribute is the
explicit argument when one is given and otherwise the id-derived default. -/
def ValidatedAttribute.init (selfId : Nat) (validator : Validator) (name : Option String) :
    ValidatedAttribute :=
  { selfId := selfId
    validator := validator
    name := match name with
      | some n => n
      | Option.none => autoName selfId }

/-- Instance-level __get__: getattr(instance, self.name), which returns the
stored value or raises AttributeError when the name is absent.  (Class
level access, instance is None, returns the descriptor itself and is not
modelled.) -/
def ValidatedAttribute.get (a : ValidatedAttribute) (instanceDict : InstanceDict) :
    Except PyVal PyVal :=
  match dictLookup instanceDict a.name with
  | some v => .ok v
  | Option.none => .error (PyVal.exc "AttributeError" a.name)

/-- The descriptor's __set__: the statement self.validator(value) invokes
__call__, i.e. is_valid, whose result is discarded (an exception raised by
it would propagate), and then setattr stores the value unconditionally. -/
def ValidatedAttribute.set (a : ValidatedAttribute) (instanceDict : InstanceDict)
    (value : PyVal) : Except PyVal InstanceDict := do
  let _ ← a.validator.is_valid value
  pure (dictSet instanceDict a.name value)

/-- The descriptor's __delete__: delattr(instance, self.name), raising
AttributeError when the name is absent. -/
def ValidatedAttribute.delete (a : ValidatedAttribute) (instanceDict : InstanceDict) :
    Except PyVal InstanceDict :=
  match dictLookup instanceDict a.name with
  | some _ => .ok (dictRemove instanceDict a.name)
  | Option.none => .error (PyVal.exc "AttributeError" a.name)

/-- Container semantics as the specification words it: iterate the target
in order; for the first element where the inner validator's evaluation is
non-empty, return that failure; otherwise empty.  Written from the
specification for comparison with the implementation above. -/
def containerSpec (inner : Validator) : List PyVal → Except PyVal PyVal
  | [] => .ok PyVal.none
  | item :: rest =>
    match inner.validate item with
    | .ok PyVal.none => containerSpec inner rest
    | other => other

/-- Numeric value of a decimal digit string (each character a digit 0-9),
used as a left inverse of decimal rendering. -/
def decValChars : List Char → Nat
  | [] => 0
  | c :: cs => (c.toNat - 48) * 10 ^ cs.length + decValChars cs

lemma digitChar_toNat (d : Nat) (h : d < 10) : (Nat.digitChar d).toNat = d + 48 := by
  interval_cases d <;> decide

lemma decValChars_toDigitsCore (fuel : Nat) :
    ∀ (n : Nat) (acc : List Char), n < 10 ^ fuel →
      decValChars (Nat.toDigitsCore 10 fuel n acc) =
        n * 10 ^ acc.length + decValChars acc := by
  induction fuel with
  | zero =>
    intro n acc h
    have hn : n = 0 := by simpa using h
    subst hn
    simp [Nat.toDigitsCore]
  | succ fuel ih =>
    intro n acc h
    simp only [Nat.toDigitsCore]
    split_ifs with h10
    · have hlt : n < 10 := by omega
      have hmod : n % 10 = n := Nat.mod_eq_of_lt hlt
      simp only [decValChars, List.length]
      rw [hmod, digitChar_toNat n hlt]
      simp [Nat.add_sub_cancel]
    · have hdiv : n / 10 < 10 ^ fuel := by
        apply Nat.div_lt_of_lt_mul
        calc n < 10 ^ (fuel + 1) := h
          _ = 10 * 10 ^ fuel := by ring
      rw [ih (n / 10) (Nat.digitChar (n % 10) :: acc) hdiv]
      simp only [decValChars, List.length]
      rw [digitChar_toNat (n % 10) (Nat.mod_lt _ (by norm_num))]
      have hm : n % 10 + 48 - 48 = n % 10 := by omega
      rw [hm]
      have key : n / 10 * 10 ^ (acc.length + 1) + n % 10 * 10 ^ acc.length
          = n * 10 ^ acc.length := by
        conv_rhs => rw [← Nat.div_add_mod n 10]
        ring
      rw [← Nat.add_assoc, key]

lemma decValChars_toDigits (n : Nat) : decValChars (Nat.toDigits 10 n) = n := by
  have h : n < 10 ^ (n + 1) :=
    lt_of_lt_of_le (Nat.lt_pow_self (by norm_num) n)
      (Nat.pow_le_pow_right (by norm_num) (Nat.le_succ n))
  simpa using decValChars_toDigitsCore (n + 1) n [] h

lemma toDigits_inj (m n : Nat) (h : Nat.toDigits 10 m = Nat.toDigits 10 n) : m = n := by
  calc m = decValChars (Nat.toDigits 10 m) := (decValChars_toDigits m).symm
    _ = decValChars (Nat.toDigits 10 n) := by rw [h]
    _ = n := decValChars_toDigits n

lemma string_append_data (a b : String) : (a ++ b).data = a.data ++ b.data := rfl

/-- Distinct descriptor ids produce distinct default storage names. -/
lemma autoName_inj (m n : Nat) (h : autoName m = autoName n) : m = n := by
  have hd := congrArg String.data h
  rw [autoName, autoName, string_append_data, string_append_data] at hd
  exact toDigits_inj m n (List.append_cancel_left hd)

/-- Frame property of attribute storage: writing under one name leaves the
value read under any other name unchanged. -/
lemma dictLookup_dictSet_ne (d : InstanceDict) (k1 k2 : String) (v : PyVal) (h : k1 ≠ k2) :
    dictLookup (dictSet d k2 v) k1 = dictLookup d k1 := by
  induction d with
  | nil => simp [dictSet, dictLookup, Ne.symm h]
  | cons kv rest ih =>
    obtain ⟨k, v0⟩ := kv
    by_cases hk : k = k2
    · subst hk
      simp [dictSet, dictLookup, Ne.symm h]
    · by_cases hk1 : k = k1 <;> simp [dictSet, dictLookup, hk, hk1, ih, h]

/-- The container loop computes the specification's first-failure function. -/
lemma containerScan_map (inner : Validator) (xs : List PyVal) :
    containerScan (xs.map (fun item => Validator.validate inner item))
      = containerSpec inner xs := by
  induction xs with
  | nil => rfl
  | cons x rest ih =>
    simp only [List.map_cons, containerScan, containerSpec]
    cases hv : Validator.validate inner x with
    | error e => rfl
    | ok v => cases v <;> simp [ih]

/-- A BooleanValidator whose predicate is constantly True, built with the
default error class (AssertionError) and default message. -/
def alwaysTrue : Validator :=
  .boolean (fun _ => PyVal.bool true) "AssertionError" DEFAULT_ERROR_MESSAGE

/-- A BooleanValidator whose predicate is constantly False, built with the
default error class and default message. -/
def alwaysFalse : Validator :=
  .boolean (fun _ => PyVal.bool false) "AssertionError" DEFAULT_ERROR_MESSAGE

/-- The nonnegativity predicate of the module docstring example,
lambda val: val >= 0, wrapped as a BooleanValidator with the defaults. -/
def nonNegative : Validator :=
  .boolean (fun value =>
    match value with
    | PyVal.int _ n => PyVal.bool (decide (0 ≤ n))
    | _ => PyVal.bool false) "AssertionError" DEFAULT_ERROR_MESSAGE

/-- A callable returning the int 2 — truthy, but not a bool — wrapped as a
BooleanValidator with the defaults. -/
def returnsTwo : Validator :=
  .boolean (fun _ => PyVal.int 900 2) "AssertionError" DEFAULT_ERROR_MESSAGE

/-- The descriptor id_num = ValidatedAttribute(nonNegative), with the
default storage name derived from the descriptor object's id 7. -/
def idNumAttr : ValidatedAttribute := ValidatedAttribute.init 7 nonNegative Option.none

/-- C1: a value that fails the validator is assigned anyway: __set__ sends
the value through __call__/is_valid and discards the boolean result, so no
error is raised, the failing value replaces the previously stored one, and
a subsequent read returns the failing value — against the claim that a
failing write raises and leaves the state unchanged. -/
theorem C1_failing_write_is_stored_and_does_not_raise :
    Validator.is_valid nonNegative (PyVal.int 501 (-5)) = .ok (PyVal.bool false) ∧
    idNumAttr.name = "__7" ∧
    ValidatedAttribute.set idNumAttr [("__7", PyVal.int 500 5)] (PyVal.int 501 (-5))
      = .ok [("__7", PyVal.int 501 (-5))] ∧
    ValidatedAttribute.get idNumAttr [("__7", PyVal.int 501 (-5))]
      = .ok (PyVal.int 501 (-5)) :=
  ⟨rfl, rfl, rfl, rfl⟩

/-- C2: with two validators that both accept the target, the conjunction's
is_valid is nevertheless False: ConjunctiveValidator.validate evaluates
its children through __call__/is_valid, so it returns the Python bool True
rather than None, and the inherited is_valid then reports
(True is None) == False — against the claimed equality
(A and B).is_valid(t) == A.is_valid(t) and B.is_valid(t). -/
theorem C2_conjunction_invalid_when_both_children_pass :
    Validator.is_valid alwaysTrue (PyVal.int 1 0) = .ok (PyVal.bool true) ∧
    Validator.validate (.conj alwaysTrue alwaysTrue) (PyVal.int 1 0)
      = .ok (PyVal.bool true) ∧
    Validator.is_valid (.conj alwaysTrue alwaysTrue) (PyVal.int 1 0)
      = .ok (PyVal.bool false) :=
  ⟨rfl, rfl, rfl⟩

/-- C3: with two validators that both reject the target, the disjunction's
is_valid is nevertheless True: DisjunctiveValidator.validate evaluates the
and-expression of the two is_valid results but lacks a return statement, so
it always returns None and no failure payload is ever reported — against
the claimed equality with or and the right child's payload. -/
theorem C3_disjunction_valid_when_both_children_fail :
    Validator.is_valid alwaysFalse (PyVal.int 1 0) = .ok (PyVal.bool false) ∧
    Validator.validate (.disj alwaysFalse alwaysFalse) (PyVal.int 1 0)
      = .ok PyVal.none ∧
    Validator.is_valid (.disj alwaysFalse alwaysFalse) (PyVal.int 1 0)
      = .ok (PyVal.bool true) :=
  ⟨rfl, rfl, rfl⟩

/-- C4: a Boolean leaf built with the default message template raises
KeyError out of validate as soon as the predicate fails: the default
template's replacement field reads target|r instead of target!r, so
str.format does not find the field name among its keyword arguments —
against the claim that validate never raises and returns a payload built
from the template. -/
theorem C4_default_template_raises_KeyError :
    Validator.validate alwaysFalse (PyVal.int 1 0)
      = .error (PyVal.exc "KeyError" "target|r") :=
  rfl

/-- C5: a Uniformity validator cannot even be built: the class's hook is
named valid, so the abstract method validate is never overridden and
abc.ABCMeta rejects the instantiation with TypeError for every key
function; the vacuous-truth behaviour on the empty target exists only in
the unreachable method body. -/
theorem C5_uniformity_class_not_instantiable :
    (∀ key_function : PyVal → PyVal, UniformityValidator.init key_function =
      .error (PyVal.exc "TypeError"
        "Can\x27t instantiate abstract class UniformityValidator with abstract method validate")) ∧
    UniformityValidator.valid (fun x => x) [] = .ok PyVal.none :=
  ⟨fun _ => rfl, rfl⟩

/-- C6: Uniqueness(lambda x: x) accepts [1, 2, 1]: in CPython the two
occurrences of the literal 1 are the same interned int object, so
setdefault returns the identical object and the loop's identity test
inserted is not item never fires — against the claimed failure naming the
two 1s.  Distinct objects with equal keys (two separately allocated big
ints) are still reported, and an all-distinct list is accepted as claimed. -/
theorem C6_uniqueness_misses_interned_duplicate :
    Validator.is_valid (.uniqueness (fun x => x))
      (.list [PyVal.int 100 1, PyVal.int 200 2, PyVal.int 100 1])
      = .ok (PyVal.bool true) ∧
    Validator.is_valid (.uniqueness (fun x => x))
      (.list [PyVal.int 100 1, PyVal.int 200 2, PyVal.int 300 3])
      = .ok (PyVal.bool true) ∧
    Validator.validate (.uniqueness (fun x => x))
      (.list [PyVal.int 100 10000000000, PyVal.int 777 10000000000])
      = .ok (PyVal.exc "ValueError" "10000000000 and 10000000000 have same keys") :=
  ⟨rfl, rfl, rfl⟩

/-- C7 counterexample: for the predicate constantly returning the int 2,
is_valid returns the raw value 2, which is truthy — so bool(p(t)) is True —
yet the claimed Python equality is_valid(t) == bool(p(t)) is False, because
2 == True is numerically false. -/
theorem C7_counterexample_nonbool_predicate :
    Validator.is_valid returnsTwo (PyVal.int 1 0) = .ok (PyVal.int 900 2) ∧
    (PyVal.int 900 2).truthy = true ∧
    pyEq (PyVal.int 900 2) (PyVal.bool true) = false :=
  ⟨rfl, rfl, rfl⟩

/-- C7 amended: Boolean(p).is_valid(t) returns p(t) itself, unconverted;
whenever p(t) is an actual bool — in particular for every genuine predicate
— the claimed equality is_valid(t) == bool(p(t)) holds. -/
theorem C7_is_valid_returns_raw_predicate_value
    (callable : PyVal → PyVal) (error_class error_message : String) (target : PyVal) :
    Validator.is_valid (.boolean callable error_class error_message) target
      = .ok (callable target) ∧
    (∀ b : Bool, callable target = PyVal.bool b →
      pyEq (callable target) (PyVal.bool (callable target).truthy) = true) := by
  refine ⟨rfl, ?_⟩
  intro b hb
  rw [hb]
  cases b <;> rfl

theorem C7_witness :
    Validator.is_valid (.boolean (fun _ => PyVal.bool true) "AssertionError" DEFAULT_ERROR_MESSAGE)
      PyVal.none = .ok (PyVal.bool true) ∧
    pyEq (PyVal.bool true) (PyVal.bool (PyVal.bool true).truthy) = true := by
  have h := C7_is_valid_returns_raw_predicate_value (fun _ => PyVal.bool true)
    "AssertionError" DEFAULT_ERROR_MESSAGE PyVal.none
  exact ⟨h.1, h.2 true rfl⟩

/-- C8: ContainerValidator.validate computes exactly the specification's
first-failure function — iterating in order, returning the inner failure of
the first failing element (a later element is never consulted once one has
failed), and reporting valid when every element passes; in particular the
pinned Type(int) examples hold, with the failure identifying "x". -/
theorem C8_container_returns_first_inner_failure :
    (∀ (inner : Validator) (xs : List PyVal),
      Validator.validate (.container inner) (.list xs) = containerSpec inner xs) ∧
    TypeValidator (.single .int) = .ok typeInt ∧
    Validator.is_valid (.container typeInt)
      (.list [PyVal.int 1 1, PyVal.int 2 2, PyVal.int 3 3]) = .ok (PyVal.bool true) ∧
    Validator.is_valid (.container typeInt)
      (.list [PyVal.int 1 1, PyVal.str "x", PyVal.int 3 3]) = .ok (PyVal.bool false) ∧
    Validator.validate (.container typeInt)
      (.list [PyVal.int 1 1, PyVal.str "x", PyVal.int 3 3])
      = .ok (PyVal.exc "TypeError" "\x27x\x27 not of type int") := by
  refine ⟨?_, rfl, rfl, rfl, rfl⟩
  intro inner xs
  exact containerScan_map inner xs

/-- C9 counterexample: two distinct descriptor instances (different object
ids) constructed with the same explicit name share one storage key, and
setting the second overwrites the value the first had stored. -/
theorem C9_counterexample_explicit_equal_names_collide :
    (ValidatedAttribute.init 11 alwaysTrue (some "x")).selfId ≠
      (ValidatedAttribute.init 22 alwaysTrue (some "x")).selfId ∧
    (ValidatedAttribute.init 11 alwaysTrue (some "x")).name =
      (ValidatedAttribute.init 22 alwaysTrue (some "x")).name ∧
    ValidatedAttribute.set (ValidatedAttribute.init 22 alwaysTrue (some "x"))
      [("x", PyVal.int 100 1)] (PyVal.int 200 2) = .ok [("x", PyVal.int 200 2)] ∧
    ValidatedAttribute.get (ValidatedAttribute.init 11 alwaysTrue (some "x"))
      [("x", PyVal.int 200 2)] = .ok (PyVal.int 200 2) :=
  ⟨by decide, rfl, rfl, rfl⟩

/-- C9 amended: for descriptors using the default auto-generated storage
name, distinct instances (distinct object ids) have distinct storage keys,
and a successful write through one descriptor leaves the value read through
the other unchanged on every instance dict. -/
theorem C9_default_storage_keys_never_collide
    (id1 id2 : Nat) (v1 v2 : Validator) (d d' : InstanceDict) (value : PyVal)
    (hne : id1 ≠ id2)
    (hset : ValidatedAttribute.set (ValidatedAttribute.init id2 v2 Option.none) d value
      = .ok d') :
    (ValidatedAttribute.init id1 v1 Option.none).name ≠
      (ValidatedAttribute.init id2 v2 Option.none).name ∧
    ValidatedAttribute.get (ValidatedAttribute.init id1 v1 Option.none) d' =
      ValidatedAttribute.get (ValidatedAttribute.init id1 v1 Option.none) d := by
  have hname : autoName id1 ≠ autoName id2 := fun hEq => hne (autoName_inj _ _ hEq)
  refine ⟨hname, ?_⟩
  have hset' : (Validator.is_valid v2 value).bind
      (fun _ => .ok (dictSet d (autoName id2) value)) = .ok d' := hset
  have hget : ∀ dd : InstanceDict,
      ValidatedAttribute.get (ValidatedAttribute.init id1 v1 Option.none) dd
        = match dictLookup dd (autoName id1) with
          | some v => .ok v
          | Option.none => .error (PyVal.exc "AttributeError" (autoName id1)) :=
    fun _ => rfl
  cases hval : Validator.is_valid v2 value with
  | error e =>
    rw [hval] at hset'
    simp [Except.bind] at hset'
  | ok w =>
    rw [hval] at hset'
    simp only [Except.bind] at hset'
    have hd' : dictSet d (autoName id2) value = d' := by
      simpa using hset'
    subst hd'
    rw [hget, hget, dictLookup_dictSet_ne d (autoName id1) (autoName id2) value hname]

theorem C9_witness :
    (ValidatedAttribute.init 1 alwaysTrue Option.none).name ≠
      (ValidatedAttribute.init 2 alwaysTrue Option.none).name ∧
    ValidatedAttribute.get (ValidatedAttribute.init 1 alwaysTrue Option.none)
      [("__2", PyVal.int 10 3)] =
      ValidatedAttribute.get (ValidatedAttribute.init 1 alwaysTrue Option.none) [] :=
  C9_default_storage_keys_never_collide 1 2 alwaysTrue alwaysTrue []
    [("__2", PyVal.int 10 3)] (PyVal.int 10 3) (by decide) rfl

/-- C10: calling Type with a tuple of types raises AttributeError while the
error message is being built (a tuple has no __name__), for every tuple —
even though isinstance itself accepts a tuple argument — and Type succeeds
on every single type. -/
theorem C10_Type_with_tuple_raises_at_construction :
    (∀ ts : List PyType, TypeValidator (.tuple ts) =
      .error (PyVal.exc "AttributeError"
        "\x27tuple\x27 object has no attribute \x27__name__\x27")) ∧
    (∀ t : PyType, ∃ v : Validator, TypeValidator (.single t) = .ok v) ∧
    (∀ (ts : List PyType) (target : PyVal),
      pyIsinstance target (.tuple ts) = ts.any (fun t => instanceOf target t)) :=
  ⟨fun _ => rfl,
    fun t => ⟨.boolean (fun target => PyVal.bool (pyIsinstance target (PyTypeArg.single t)))
      "TypeError" ("\x7btarget!r\x7d not of type " ++ t.name), rfl⟩,
    fun _ _ => rfl⟩
